import Mathlib

/-!
Verification of the NL2SQL agent's decision pipeline against its specification.

The Python sources (`app/guardrails.py`, `app/sql_builder.py`, `app/extractors.py`,
`app/normalize.py`, `app/intent.py`, `app/agent.py`, `app/memory.py`) are shallowly
embedded below.  Python strings are modelled as `List Char`; `str.lower()`,
`str.strip()`, regex word-boundary search and `re.findall` are modelled for the
ASCII fragment the program manipulates (all keywords, markers and prompts are
ASCII).  Stateful pieces (the clarification memory) are modelled by explicit
state passing, and the two external collaborators (the generative model and the
SQLite executor) are parameters returning `Option`, `none` standing for a raised
exception.
-/

set_option maxRecDepth 100000

/-- Python strings, modelled as lists of characters. -/
abbrev PyStr := List Char

/-- Character list of a Lean string literal (used to write concrete inputs). -/
def lit (s : String) : PyStr := s.data

/-- ASCII lowercasing of one character, the behaviour of Python `str.lower()`
on the ASCII fragment. -/
def pyLowerChar (c : Char) : Char :=
  match c with
  | 'A' => 'a' | 'B' => 'b' | 'C' => 'c' | 'D' => 'd' | 'E' => 'e' | 'F' => 'f'
  | 'G' => 'g' | 'H' => 'h' | 'I' => 'i' | 'J' => 'j' | 'K' => 'k' | 'L' => 'l'
  | 'M' => 'm' | 'N' => 'n' | 'O' => 'o' | 'P' => 'p' | 'Q' => 'q' | 'R' => 'r'
  | 'S' => 's' | 'T' => 't' | 'U' => 'u' | 'V' => 'v' | 'W' => 'w' | 'X' => 'x'
  | 'Y' => 'y' | 'Z' => 'z'
  | c => c

/-- ASCII uppercasing of one character, the behaviour of Python `str.upper()`
on the ASCII fragment. -/
def pyUpperChar (c : Char) : Char :=
  match c with
  | 'a' => 'A' | 'b' => 'B' | 'c' => 'C' | 'd' => 'D' | 'e' => 'E' | 'f' => 'F'
  | 'g' => 'G' | 'h' => 'H' | 'i' => 'I' | 'j' => 'J' | 'k' => 'K' | 'l' => 'L'
  | 'm' => 'M' | 'n' => 'N' | 'o' => 'O' | 'p' => 'P' | 'q' => 'Q' | 'r' => 'R'
  | 's' => 'S' | 't' => 'T' | 'u' => 'U' | 'v' => 'V' | 'w' => 'W' | 'x' => 'X'
  | 'y' => 'Y' | 'z' => 'Z'
  | c => c

/-- Python `str.lower()`. -/
def pyLower (s : PyStr) : PyStr := s.map pyLowerChar

/-- Python `str.upper()`. -/
def pyUpper (s : PyStr) : PyStr := s.map pyUpperChar

/-- Membership in the regex `\w` class `[A-Za-z0-9_]` (ASCII). -/
def isWordChar (c : Char) : Bool := c.isAlphanum || c == '_'

/-- Membership in the regex `\s` class / Python `str.strip()` whitespace (ASCII). -/
def isSpaceChar (c : Char) : Bool :=
  c == ' ' || c == '\t' || c == '\n' || c == '\r' || c == '\x0b' || c == '\x0c'

/-- Python `str.lstrip()`. -/
def lstrip (s : PyStr) : PyStr := s.dropWhile isSpaceChar

/-- Python `str.rstrip()`. -/
def rstrip (s : PyStr) : PyStr := (s.reverse.dropWhile isSpaceChar).reverse

/-- Python `str.strip()`. -/
def pyStrip (s : PyStr) : PyStr := lstrip (rstrip s)

/-- Python `str.rstrip(';')`: remove all trailing semicolons. -/
def rstripSemicolons (s : PyStr) : PyStr := (s.reverse.dropWhile (· == ';')).reverse

/-- Does `k` occur literally at the head of `s`? -/
def startsWithStr : PyStr → PyStr → Bool
  | [], _ => true
  | _ :: _, [] => false
  | a :: k', c :: s' => a == c && startsWithStr k' s'

/-- Does `k` occur at the head of `s` up to ASCII case (`k` given lowercase)? -/
def startsWithCI : PyStr → PyStr → Bool
  | [], _ => true
  | _ :: _, [] => false
  | a :: k', c :: s' => a == pyLowerChar c && startsWithCI k' s'

/-- Is the position at the head of `s` a right word boundary (`\b`)? -/
def wordEndsAt (s : PyStr) : Bool :=
  match s with
  | [] => true
  | c :: _ => !isWordChar c

/-- Does the word `k` (word characters) match at the head of `s`, with a `\b`
boundary after it?  The boundary before the head of `s` is the caller's duty. -/
def matchWordHere : PyStr → PyStr → Bool
  | [], rest => wordEndsAt rest
  | _ :: _, [] => false
  | a :: k', c :: s' => a == c && matchWordHere k' s'

/-- Scanner for `re.search(r"\b<k>\b", s)`: `prev` records whether the
character immediately to the left is a word character. -/
def scanWord (k : PyStr) : PyStr → Bool → Bool
  | [], _ => false
  | c :: s', prev => (!prev && matchWordHere k (c :: s')) || scanWord k s' (isWordChar c)

/-- Whole-word occurrence of `k` in `s`, i.e. `re.search(r"\b<k>\b", s)` finds a match. -/
def hasWholeWord (k s : PyStr) : Bool := scanWord k s false

/-- Python substring containment, `needle in hay`. -/
def isSubstr (needle : PyStr) : PyStr → Bool
  | [] => startsWithStr needle []
  | c :: s' => startsWithStr needle (c :: s') || isSubstr needle s'

/-- Decimal digits of a natural number, Python `str(n)` / f-string interpolation. -/
def natStr (n : Nat) : PyStr := (Nat.repr n).data

-- ------------------------------------------------------------------
-- app/guardrails.py
-- ------------------------------------------------------------------

/-- Table names of `ALLOWED_SCHEMA` (its keys, which is what validation consults). -/
def ALLOWED_TABLES : List PyStr :=
  [lit "users", lit "payments", lit "events", lit "tickets"]

/-- Tuple `FORBIDDEN_KEYWORDS` of `guardrails.py`, in source order. -/
def FORBIDDEN_KEYWORDS : List PyStr :=
  [lit "insert", lit "update", lit "delete", lit "drop", lit "alter",
   lit "truncate", lit "create", lit "attach", lit "pragma", lit "intersect"]

/-- Parse `[a-zA-Z_][\w]*` at the head of `s`; on success return the captured
identifier and the remaining input. -/
def grabIdent (s : PyStr) : Option (PyStr × PyStr) :=
  match s with
  | [] => none
  | c :: s' =>
    if c.isAlpha || c == '_' then
      some (c :: s'.takeWhile isWordChar, s'.dropWhile isWordChar)
    else none

/-- Try to match `<kw>\s+([a-zA-Z_][\w]*)` at the head of `s` (the `\b` before
`kw` is the caller's duty); on success return the captured identifier and the
input remaining after the match. -/
def matchKwIdent (kw : PyStr) (s : PyStr) : Option (PyStr × PyStr) :=
  if startsWithStr kw s then
    let r := s.drop kw.length
    if (r.takeWhile isSpaceChar).isEmpty then none
    else grabIdent (r.dropWhile isSpaceChar)
  else none

/-- Scanner for `re.findall(rf"\b<kw>\s+([a-zA-Z_][\w]*)", s)`: left-to-right,
non-overlapping, resuming after each match.  `fuel` bounds the recursion; the
callers pass the length of the input, which suffices because every step
consumes at least one character. -/
def scanFromTables (kw : PyStr) : Nat → PyStr → Bool → List PyStr
  | 0, _, _ => []
  | fuel + 1, s, prev =>
    match s with
    | [] => []
    | c :: s' =>
      match (if prev then none else matchKwIdent kw s) with
      | some (ident, rest) => ident :: scanFromTables kw fuel rest true
      | none => scanFromTables kw fuel s' (isWordChar c)

/-- All identifiers captured by `re.findall(rf"\b<kw>\s+([a-zA-Z_][\w]*)", sql)`. -/
def findTables (kw sql : PyStr) : List PyStr := scanFromTables kw sql.length sql false

/-- Function `_uses_only_allowed_tables` of `guardrails.py`. -/
def uses_only_allowed_tables (sql_lower : PyStr) : Bool :=
  (findTables (lit "from") sql_lower ++ findTables (lit "join") sql_lower).all
    (fun t => ALLOWED_TABLES.contains t)

/-- Function `_has_self_join` of `guardrails.py`. -/
def has_self_join (sql_lower : PyStr) : Bool :=
  (findTables (lit "join") sql_lower).any
    (fun jt => (findTables (lit "from") sql_lower).contains jt)

/-- Does `\s+\*` match at the head of `r`? -/
def spacesThenStar (r : PyStr) : Bool :=
  !(r.takeWhile isSpaceChar).isEmpty &&
    (match r.dropWhile isSpaceChar with
     | '*' :: _ => true
     | _ => false)

/-- Scanner for `re.search(r"select\s+\*", s)` (no word boundaries in the pattern). -/
def scanStar : PyStr → Bool
  | [] => false
  | c :: s' =>
    (startsWithStr (lit "select") (c :: s') && spacesThenStar ((c :: s').drop 6)) || scanStar s'

/-- Function `_references_large_tables_without_time_filter` of `guardrails.py`. -/
def references_large_tables_without_time_filter (sql_lower : PyStr) : Bool :=
  (isSubstr (lit "payments") sql_lower || isSubstr (lit "events") sql_lower) &&
    !(isSubstr (lit "created_at") sql_lower)

/-- Unified validation contract returned by `validate_sql` (the Python dict). -/
structure Verdict where
  status : PyStr
  sql : Option PyStr
  warnings : List PyStr
  reason : Option PyStr
  question : Option PyStr
deriving DecidableEq, Repr

/-- The fixed time-range prompt of check 6 of `validate_sql`. -/
def GUARD_TIME_PROMPT : PyStr :=
  lit "Which time range do you want? (last 7 days / last 30 days / custom)"

/-- Function `validate_sql` of `guardrails.py`, checks in source order. -/
def validate_sql (sql : PyStr) : Verdict :=
  let normalized := pyStrip sql
  let sql_lower := pyLower normalized
  match FORBIDDEN_KEYWORDS.find? (fun k => hasWholeWord k sql_lower) with
  | some forbidden_hit =>
    { status := lit "blocked", sql := none, warnings := [],
      reason := some (lit "Query contains forbidden keyword: " ++ forbidden_hit ++ lit "."),
      question := none }
  | none =>
    if normalized.count ';' > 1 then
      { status := lit "blocked", sql := none, warnings := [],
        reason := some (lit "Multiple SQL statements are not allowed."), question := none }
    else if !uses_only_allowed_tables sql_lower then
      { status := lit "blocked", sql := none, warnings := [],
        reason := some (lit "Query references tables outside the allowed schema."),
        question := none }
    else if has_self_join sql_lower then
      { status := lit "blocked", sql := none, warnings := [],
        reason := some (lit "Self-joins are not allowed for analytics queries."),
        question := none }
    else if scanStar sql_lower then
      { status := lit "blocked", sql := none, warnings := [],
        reason := some (lit "SELECT * is not allowed; specify explicit columns."),
        question := none }
    else if references_large_tables_without_time_filter sql_lower then
      { status := lit "clarification_needed", sql := none, warnings := [], reason := none,
        question := some GUARD_TIME_PROMPT }
    else if isSubstr (lit "limit") sql_lower then
      { status := lit "success", sql := some normalized, warnings := [],
        reason := none, question := none }
    else
      { status := lit "success",
        sql := some (rstripSemicolons normalized ++ lit " LIMIT 50"),
        warnings := [lit "LIMIT 50 was automatically applied for safety"],
        reason := none, question := none }

-- ------------------------------------------------------------------
-- app/sql_builder.py
-- ------------------------------------------------------------------

/-- Function `build_users_query` of `sql_builder.py`.  `if country:` is Python
truthiness, so an empty string behaves like `None`. -/
def build_users_query (country : Option PyStr) (aggregate : Bool) : PyStr :=
  let select_clause :=
    if aggregate then lit "SELECT COUNT(*) AS user_count" else lit "SELECT *"
  let sql := select_clause ++ lit "\nFROM users"
  let sql :=
    match country with
    | some c => if c.isEmpty then sql else sql ++ lit "\nWHERE country = '" ++ c ++ lit "'"
    | none => sql
  sql ++ lit "\nLIMIT 50"

/-- Function `build_payments_query` of `sql_builder.py`.  `if status:` and
`if since_days:` are Python truthiness, so `''` and `0` behave like `None`. -/
def build_payments_query (status : Option PyStr) (since_days : Option Nat)
    (aggregate : Bool) : PyStr :=
  let select_clause :=
    if aggregate then lit "SELECT COUNT(*) AS failed_payments" else lit "SELECT *"
  let where_clauses :=
    (match status with
     | some s => if s.isEmpty then [] else [lit "status = '" ++ s ++ lit "'"]
     | none => []) ++
    (match since_days with
     | some d =>
       if d == 0 then []
       else [lit "created_at >= datetime('now', '-" ++ natStr d ++ lit " days')"]
     | none => [])
  let sql_lines :=
    [select_clause, lit "FROM payments"] ++
      (if where_clauses.isEmpty then []
       else [lit "WHERE " ++ (lit "\n  AND ").intercalate where_clauses]) ++
      [lit "LIMIT 50"]
  (lit "\n").intercalate sql_lines

-- ------------------------------------------------------------------
-- app/normalize.py
-- ------------------------------------------------------------------

/-- Dict `COUNTRY_MAP` of `normalize.py`, in insertion order. -/
def COUNTRY_MAP : List (PyStr × PyStr) :=
  [(lit "india", lit "IN"), (lit "united states", lit "US"), (lit "usa", lit "US"),
   (lit "us", lit "US"), (lit "united kingdom", lit "UK"), (lit "uk", lit "UK"),
   (lit "germany", lit "DE"), (lit "singapore", lit "SG")]

/-- Does the word `k` (lowercase) match at the head of `s` up to ASCII case,
with a `\b` boundary after it? -/
def matchWordHereCI : PyStr → PyStr → Bool
  | [], rest => wordEndsAt rest
  | _ :: _, [] => false
  | a :: k', c :: s' => a == pyLowerChar c && matchWordHereCI k' s'

/-- Scanner for `re.sub(rf"\b<key>\b", repl, s, flags=re.IGNORECASE)`:
left-to-right, non-overlapping, boundaries judged on the original input.
`fuel` bounds the recursion; callers pass the input length, which suffices
because every step consumes at least one character of nonempty `key`. -/
def subWordCI (key repl : PyStr) : Nat → PyStr → Bool → PyStr
  | 0, s, _ => s
  | _ + 1, [], _ => []
  | fuel + 1, c :: s', prev =>
    if !prev && matchWordHereCI key (c :: s') then
      repl ++ subWordCI key repl fuel ((c :: s').drop key.length)
        (isWordChar (key.getLastD c))
    else
      c :: subWordCI key repl fuel s' (isWordChar c)

/-- One `re.sub(rf"\b<key>\b", repl, s, flags=re.IGNORECASE)` pass. -/
def subWordAll (key repl s : PyStr) : PyStr := subWordCI key repl s.length s false

/-- The substitution loop of `normalize_question`, applied to already
lowercased text. -/
def applySubs (s : PyStr) : PyStr :=
  COUNTRY_MAP.foldl (fun acc kv => subWordAll kv.1 kv.2 acc) s

/-- Function `normalize_question` of `normalize.py`. -/
def normalize_question (question : PyStr) : PyStr := applySubs (pyLower question)

-- ------------------------------------------------------------------
-- app/intent.py
-- ------------------------------------------------------------------

/-- The four boolean signals returned by `detect_intent` (the Python dict). -/
structure IntentSignals where
  is_filter : Bool
  is_group_by : Bool
  is_aggregate : Bool
  has_time_range : Bool
deriving DecidableEq, Repr

/-- Does one of `days`, `weeks`, `months` match wordwise at the head of `s`? -/
def timeUnitAt (s : PyStr) : Bool :=
  matchWordHere (lit "days") s || matchWordHere (lit "weeks") s ||
    matchWordHere (lit "months") s

/-- Does `\d+\s*(days|weeks|months)\b` match at the head of `s`? -/
def numUnitAt (s : PyStr) : Bool :=
  !(s.takeWhile Char.isDigit).isEmpty &&
    timeUnitAt ((s.dropWhile Char.isDigit).dropWhile isSpaceChar)

/-- Does one alternative of `last|past|\d+\s*days|\d+\s*weeks|\d+\s*months`
match at the head of `s`, with the closing `\b`? -/
def timeMarkerAt (s : PyStr) : Bool :=
  matchWordHere (lit "last") s || matchWordHere (lit "past") s || numUnitAt s

/-- Scanner for `re.search(r"\b(last|past|\d+\s*days|\d+\s*weeks|\d+\s*months)\b", s)`. -/
def scanTimeRange : PyStr → Bool → Bool
  | [], _ => false
  | c :: s', prev => (!prev && timeMarkerAt (c :: s')) || scanTimeRange s' (isWordChar c)

/-- Whole-word occurrence of one of several alternatives, i.e.
`re.search(r"\b(k1|k2|...)\b", q)` finds a match. -/
def anyWholeWord (ks : List PyStr) (q : PyStr) : Bool :=
  ks.any (fun k => hasWholeWord k q)

/-- The classifier's aggregate-marker alternatives `count|how many|total|sum`. -/
def AGGREGATE_MARKERS : List PyStr :=
  [lit "count", lit "how many", lit "total", lit "sum"]

/-- Function `detect_intent` of `intent.py`. -/
def detect_intent (question : PyStr) : IntentSignals :=
  let q := pyLower question
  { is_filter := anyWholeWord [lit "from", lit "in", lit "where"] q
    is_group_by := anyWholeWord [lit "by", lit "per", lit "grouped by"] q
    is_aggregate := anyWholeWord AGGREGATE_MARKERS q
    has_time_range := scanTimeRange q false }

-- ------------------------------------------------------------------
-- app/extractors.py
-- ------------------------------------------------------------------

/-- The alternatives of the country-code pattern `\b(in|us|uk|de|sg)\b`. -/
def COUNTRY_CODES : List PyStr :=
  [lit "in", lit "us", lit "uk", lit "de", lit "sg"]

/-- Scanner for `re.search(r"\b(in|us|uk|de|sg)\b", s)`: return the text of the
first (leftmost) whole-word match. -/
def scanCountry : PyStr → Bool → Option PyStr
  | [], _ => none
  | c :: s', prev =>
    match (if prev then none else COUNTRY_CODES.find? (fun k => matchWordHere k (c :: s'))) with
    | some k => some k
    | none => scanCountry s' (isWordChar c)

/-- Function `extract_country` of `extractors.py`. -/
def extract_country (question : PyStr) : Option PyStr :=
  (scanCountry (pyLower question) false).map pyUpper

/-- Claim-side characterisation for C10: does the word `k` occur at index `i`
of `s` with `\b` boundaries on both sides?  Stated positionally (via
`drop`/`getD`), independently of the scanner above. -/
def codeWordAt (k s : PyStr) (i : Nat) : Bool :=
  (if i = 0 then true else !isWordChar (s.getD (i - 1) ' ')) && matchWordHere k (s.drop i)

/-- Claim-side "first whole-word occurrence" for C10: the smallest index at
which one of the country codes occurs as a whole word, and the code found
there. -/
def first_code_at (s : PyStr) : Option PyStr :=
  (List.range s.length).findSome? (fun i => COUNTRY_CODES.find? (fun k => codeWordAt k s i))

/-- Generalisation of `codeWordAt` whose boundary test at index `0` is an
explicit flag, used to relate the scanner to the positional description. -/
def codeWordAtFrom (prev : Bool) (k s : PyStr) (i : Nat) : Bool :=
  (if i = 0 then !prev else !isWordChar (s.getD (i - 1) ' ')) && matchWordHere k (s.drop i)

-- ------------------------------------------------------------------
-- app/memory.py
-- ------------------------------------------------------------------

/-- The module-level `_state` dict of `memory.py`, passed explicitly. -/
structure AgentState where
  pending_question : Option PyStr
  pending_clarification : Option PyStr
deriving DecidableEq, Repr

/-- Function `set_pending` of `memory.py`. -/
def set_pending (question clarification : PyStr) (_ : AgentState) : AgentState :=
  { pending_question := some question, pending_clarification := some clarification }

/-- Function `get_pending` of `memory.py`. -/
def get_pending (st : AgentState) : Option PyStr × Option PyStr :=
  (st.pending_question, st.pending_clarification)

/-- Function `clear_pending` of `memory.py`. -/
def clear_pending (_ : AgentState) : AgentState :=
  { pending_question := none, pending_clarification := none }

/-- Python truthiness of an optional string (`None` and `''` are falsy). -/
def strTruthy : Option PyStr → Bool
  | none => false
  | some s => !s.isEmpty

-- ------------------------------------------------------------------
-- app/models.py: AskResponse (pydantic model), rows kept abstract as
-- name-to-value mappings with string values.
-- ------------------------------------------------------------------

/-- One result row, a mapping of column names to (stringly modelled) values. -/
abbrev Row := List (PyStr × PyStr)

/-- The dict returned by `db.execute_read_only_query` (the `execution_time_ms`
field plays no role in any claim and is omitted; the executor itself is an
external collaborator and appears as an `Option`-returning parameter). -/
structure QueryResult where
  columns : List PyStr
  rows : List Row
deriving DecidableEq, Repr

/-- Pydantic model `AskResponse` of `models.py`, with its field defaults. -/
structure AskResponse where
  answer : PyStr
  sql : Option PyStr := none
  rows : List Row := []
  explanation : Option PyStr := none
  confidence : ℚ
  warnings : List PyStr := []
deriving DecidableEq, Repr

-- ------------------------------------------------------------------
-- app/agent.py
-- ------------------------------------------------------------------

/-- Function `is_followup_answer` of `agent.py`. -/
def is_followup_answer (text : PyStr) : Bool :=
  [lit "list", lit "show list", lit "just the list", lit "count",
   lit "just the count", lit "total", lit "last 7 days", lit "last 30 days"].contains
    (pyLower (pyStrip text))

/-- The time-range prompt of rule 1 of `needs_clarification`. -/
def AGENT_TIME_PROMPT : PyStr :=
  lit "Which time range should I use? (last 7 days / last 30 days / custom)"

/-- Function `needs_clarification` of `agent.py`, rules in source order. -/
def needs_clarification (intent : IntentSignals) (question : PyStr) : Option PyStr :=
  let q := pyLower question
  if (isSubstr (lit "payment") q || isSubstr (lit "event") q) && !intent.has_time_range then
    some AGENT_TIME_PROMPT
  else if isSubstr (lit "america") q then
    some (lit "Did you mean United States (US)?")
  else if intent.is_filter && !intent.is_aggregate then
    if [lit " list", lit "show list", lit "just the list"].any (fun m => isSubstr m q) then
      none
    else if [lit "count", lit "how many", lit "total", lit "just the count"].any
        (fun m => isSubstr m q) then
      none
    else some (lit "Do you want the list or just the count?")
  else none

/-- Model of `re.sub(r"(?i)^show\s+", "", base)`: drop one leading
case-insensitive `show` followed by at least one whitespace character. -/
def stripLeadingShow (base : PyStr) : PyStr :=
  if startsWithCI (lit "show") base then
    let rest := base.drop 4
    if (rest.takeWhile isSpaceChar).isEmpty then base else rest.dropWhile isSpaceChar
  else base

/-- Function `_resolve_followup` of `agent.py`. -/
def resolve_followup (pending_question follow_up : PyStr) : Option PyStr :=
  let base := pyStrip pending_question
  let follow := pyStrip follow_up
  let low_follow := pyLower follow
  let base_no_show := pyStrip (stripLeadingShow base)
  if [lit "days", lit "weeks", lit "months", lit "last", lit "past"].any
      (fun k => isSubstr k low_follow) then
    some (base ++ lit " " ++ follow)
  else if [lit "count", lit "how many", lit "total", lit "sum"].any
      (fun k => isSubstr k low_follow) then
    some (lit "How many " ++ base_no_show)
  else if [lit "list", lit "show"].any (fun k => isSubstr k low_follow) then
    some (lit "Show " ++ base_no_show)
  else none

/-- Scanner for `re.sub(r"(?:```sql|```)", "", text, flags=re.IGNORECASE)`
(written `"```sql|```"` in the source): erase fences left to right, trying the
longer alternative first.  `fuel` bounds the recursion; callers pass the input
length. -/
def eraseFences : Nat → PyStr → PyStr
  | 0, s => s
  | _ + 1, [] => []
  | fuel + 1, c :: s' =>
    if startsWithCI (lit "```sql") (c :: s') then eraseFences fuel ((c :: s').drop 6)
    else if startsWithCI (lit "```") (c :: s') then eraseFences fuel ((c :: s').drop 3)
    else c :: eraseFences fuel s'

/-- Shortest run of characters through the first `';'` inclusive, if any. -/
def takeThroughSemi : PyStr → Option PyStr
  | [] => none
  | c :: s' => if c == ';' then some [c] else (takeThroughSemi s').map (c :: ·)

/-- Leftmost match of `re.search(r"(select[\s\S]*?;)", text, flags=re.IGNORECASE)`.
If the first case-insensitive `select` has no later `';'`, no later one has
either, so returning `none` there is the regex's overall failure. -/
def findSelect : PyStr → Option PyStr
  | [] => none
  | c :: s' =>
    if startsWithCI (lit "select") (c :: s') then takeThroughSemi (c :: s')
    else findSelect s'

/-- Function `_clean_sql` of `agent.py`.  Python `splitlines` is modelled for
the ASCII line separators. -/
def clean_sql (generated_text : PyStr) : PyStr :=
  let text := pyStrip generated_text
  let text := pyStrip (eraseFences text.length text)
  match findSelect text with
  | some stmt => pyStrip stmt
  | none => pyStrip (text.takeWhile (fun c => !(c == '\n' || c == '\r')))

/-- Schema outline produced by `get_schema_context` of `guardrails.py`. -/
def get_schema_context : PyStr :=
  lit "users(id, name, email, country, plan, created_at)\npayments(id, user_id, amount, status, created_at)\nevents(id, user_id, name, created_at)\ntickets(id, user_id, category, status, created_at)"

/-- Constant `SQL_GENERATION_PROMPT` of `prompts.py` (the triple-quoted
instruction text, ending in a newline). -/
def SQL_GENERATION_PROMPT : PyStr :=
  lit "You generate read-only SQL queries for SQLite.\n\nAllowed schema (use only these tables and columns):\nusers(id, name, email, country, plan, created_at)\npayments(id, user_id, amount, status, created_at)\nevents(id, user_id, name, created_at)\ntickets(id, user_id, category, status, created_at)\n\nRules:\n- ONLY use the tables and columns listed above. NEVER invent tables or columns.\n- NEVER use SELECT *; list explicit columns.\n- ONLY generate read-only SELECT queries.\n- Use LIMIT 50 by default.\n- Use created_at for time filtering with datetime('now', '<offset>').\n- Output ONLY valid SQL (no explanations).\n- If the question mentions a specific value (e.g., \"from India\", \"in US\", \"country = Germany\"), use a WHERE clause, NOT GROUP BY.\n- Use GROUP BY ONLY when the question asks for comparisons or distributions (e.g., \"by country\", \"per country\", \"grouped by\").\n- Country value mapping for users.country:\n  - India -> 'IN'\n  - United States / USA -> 'US'\n  - United Kingdom / UK -> 'UK'\n  - Germany -> 'DE'\n  - Singapore -> 'SG'\n\nExamples:\n\nExample 1:\nQuestion: Show users by country\nSQL:\nSELECT country, COUNT(*) AS user_count\nFROM users\nGROUP BY country\nLIMIT 50;\n\nExample 2:\nQuestion: Show failed payments last 7 days\nSQL:\nSELECT COUNT(*) AS failed_payments\nFROM payments\nWHERE status = 'failed'\n  AND created_at >= datetime('now', '-7 days')\nLIMIT 50;\n\nExample 3:\nQuestion: Show open tickets by category\nSQL:\nSELECT category, COUNT(*) AS open_tickets\nFROM tickets\nWHERE status = 'open'\nGROUP BY category\nLIMIT 50;\n\nExample 4:\nQuestion: New users last 30 days\nSQL:\nSELECT COUNT(*) AS new_users\nFROM users\nWHERE created_at >= datetime('now', '-30 days')\nLIMIT 50;\n\nExample 5:\nQuestion: Show users list from India\nSQL:\nSELECT *\nFROM users\nWHERE country = 'IN'\nLIMIT 50;\n\nExample 6:\nQuestion: Show users from the US\nSQL:\nSELECT *\nFROM users\nWHERE country = 'US'\nLIMIT 50;\n\nExample 7:\nQuestion: How many users are from India\nSQL:\nSELECT COUNT(*) AS user_count\nFROM users\nWHERE country = 'IN'\nLIMIT 50;\n"

/-- Function `build_sql_prompt` of `prompts.py`. -/
def build_sql_prompt (question : PyStr) : PyStr :=
  SQL_GENERATION_PROMPT ++
    lit "\n\nDatabase schema (for reference):\n" ++ get_schema_context ++
    lit "\n\nQuestion: " ++ question ++ lit "\nSQL:"

/-- The explicit-wording override of `run_agent` (`count wins if both appear`):
substring tests against the lowercased normalized question. -/
def applyAggregateOverride (intent : IntentSignals) (lower_q : PyStr) : IntentSignals :=
  if [lit "count", lit "how many", lit "total"].any (fun m => isSubstr m lower_q) then
    { intent with is_aggregate := true }
  else if [lit " list", lit "show ", lit "details"].any (fun m => isSubstr m lower_q) then
    { intent with is_aggregate := false }
  else intent

/-- The follow-up consumption step at the top of `run_agent`: the question the
rest of the turn runs on.  The slot is cleared in every branch that found it
occupied; `combine_with_pending` only computes the resulting question. -/
def combine_with_pending (pending_question : Option PyStr) (question : PyStr) : PyStr :=
  if strTruthy pending_question && is_followup_answer question then
    (pending_question.getD []) ++ lit " " ++ question
  else if strTruthy pending_question then
    match resolve_followup (pending_question.getD []) question with
    | some resolved => resolved
    | none => question
  else question

/-- Python `True`/`False` rendering used by the intent-hint f-string. -/
def pyBool (b : Bool) : PyStr := if b then lit "True" else lit "False"

/-- Shared success/failure wrapping of a deterministic-path execution
(`agent.py` repeats this block verbatim on the payments and users paths). -/
def detResponse (deterministic_sql : PyStr) (ex : PyStr → Option QueryResult) : AskResponse :=
  match ex deterministic_sql with
  | some result =>
    { answer := lit "Here are the results of your query.",
      sql := some deterministic_sql,
      rows := result.rows,
      explanation := some
        (if !result.columns.isEmpty && !result.rows.isEmpty then
          lit "Returned " ++ natStr result.rows.length ++ lit " rows with columns: " ++
            (lit ", ").intercalate result.columns ++ lit "."
        else lit "Query executed via deterministic routing."),
      confidence := 0.7,
      warnings := [] }
  | none =>
    { answer := [],
      sql := some deterministic_sql,
      rows := [],
      explanation := some (lit "Query execution failed."),
      confidence := 0.4,
      warnings := [lit "Deterministic path execution failed."] }

/-- Function `run_agent` of `agent.py`.  The generative model and the database
executor are the two external collaborators, passed as `gen` and `ex`; `none`
models a raised exception in the corresponding `try` block.  The clarification
memory is threaded as explicit state. -/
def run_agent (gen : PyStr → Option PyStr) (ex : PyStr → Option QueryResult)
    (st : AgentState) (question : PyStr) : AskResponse × AgentState :=
  let combined_question := combine_with_pending st.pending_question question
  let st1 := if strTruthy st.pending_question then clear_pending st else st
  let normalized_question := normalize_question combined_question
  let lower_q := pyLower normalized_question
  let intent := applyAggregateOverride (detect_intent normalized_question) lower_q
  match needs_clarification intent normalized_question with
  | some clar_question =>
    ({ answer := lit "I need more information to answer this.",
       explanation := some clar_question, confidence := 0.4, warnings := [] },
     set_pending combined_question clar_question st1)
  | none =>
    let is_simple_query := intent.is_filter || intent.is_aggregate ||
      (isSubstr (lit "payment") lower_q && intent.has_time_range)
    let has_group_by := intent.is_group_by
    let has_join_keywords :=
      isSubstr (lit " join ") lower_q || isSubstr (lit "join ") lower_q
    let is_payments_query := isSubstr (lit "payment") lower_q
    if is_payments_query && is_simple_query && !has_group_by && !has_join_keywords then
      let status := if isSubstr (lit "failed") lower_q then some (lit "failed") else none
      let since_days :=
        if isSubstr (lit "7 days") lower_q || isSubstr (lit "last 7 days") lower_q then
          some 7
        else none
      let since_days :=
        if isSubstr (lit "30 days") lower_q || isSubstr (lit "last 30 days") lower_q then
          some 30
        else since_days
      (detResponse (build_payments_query status since_days intent.is_aggregate) ex, st1)
    else
      let is_users_query := isSubstr (lit "users") lower_q
      let references_other_tables :=
        [lit "payment", lit "event", lit "ticket"].any (fun n => isSubstr n lower_q)
      if is_users_query && is_simple_query && !has_group_by &&
          !references_other_tables && !has_join_keywords then
        (detResponse (build_users_query (extract_country normalized_question)
          intent.is_aggregate) ex, st1)
      else
        let intent_hint :=
          lit " Intent hints: filter=" ++ pyBool intent.is_filter ++
            lit ", group_by=" ++ pyBool intent.is_group_by ++
            lit ", aggregate=" ++ pyBool intent.is_aggregate ++
            lit ", has_time_range=" ++ pyBool intent.has_time_range ++ lit "."
        let prompt := build_sql_prompt (normalized_question ++ intent_hint)
        match gen prompt with
        | none =>
          ({ answer := [], sql := some [], rows := [],
             explanation := some (lit "Failed to generate SQL from the model."),
             confidence := 0,
             warnings := [lit "Model generation failed; please try rephrasing your question."] },
           st1)
        | some raw_sql =>
          let proposed_sql := clean_sql raw_sql
          let validation := validate_sql proposed_sql
          if validation.status == lit "blocked" then
            let reason :=
              match validation.reason with
              | some r => if r.isEmpty then lit "Query was blocked for safety reasons." else r
              | none => lit "Query was blocked for safety reasons."
            ({ answer := [], sql := some [], rows := [],
               explanation := some (lit "Query was blocked for safety reasons."),
               confidence := 0,
               warnings := validation.warnings ++ [reason] }, st1)
          else if validation.status == lit "clarification_needed" then
            ({ answer := [],
               explanation := some
                 (match validation.question with
                  | some q => if q.isEmpty then lit "I need a time range to run this query safely." else q
                  | none => lit "I need a time range to run this query safely."),
               confidence := 0.4,
               warnings := validation.warnings }, st1)
          else
            let executable_sql :=
              match validation.sql with
              | some s => if s.isEmpty then proposed_sql else s
              | none => proposed_sql
            match ex executable_sql with
            | some result =>
              ({ answer := lit "Here are the results of your query.",
                 sql := some executable_sql,
                 rows := result.rows,
                 explanation := some
                   (if !result.columns.isEmpty && !result.rows.isEmpty then
                     lit "Returned " ++ natStr result.rows.length ++
                       lit " rows with columns: " ++
                       (lit ", ").intercalate result.columns ++ lit "."
                   else lit "Query executed safely with guardrails applied."),
                 confidence := 0.7,
                 warnings := validation.warnings }, st1)
            | none =>
              ({ answer := [], sql := some executable_sql, rows := [],
                 explanation := some (lit "Query execution failed."),
                 confidence := 0.4,
                 warnings := validation.warnings ++
                   [lit "Query failed to execute. Please adjust your request."] }, st1)

-- ==================================================================
-- General lemmas about the text model
-- ==================================================================

theorem spaceChar_not_wordChar (c : Char) (h : isSpaceChar c = true) : isWordChar c = false := by
  simp only [isSpaceChar, Bool.or_eq_true, beq_iff_eq] at h
  rcases h with (((((h | h) | h) | h) | h) | h) <;> subst h <;> decide

theorem isSpaceChar_pyLowerChar (c : Char) : isSpaceChar (pyLowerChar c) = isSpaceChar c := by
  unfold pyLowerChar
  split <;> rfl

set_option maxHeartbeats 2000000 in
theorem pyLowerChar_idem (c : Char) : pyLowerChar (pyLowerChar c) = pyLowerChar c := by
  unfold pyLowerChar
  split <;> try rfl
  all_goals rename_i heq
  all_goals split at heq <;>
    first
      | exact absurd heq (by decide)
      | exact absurd heq (by assumption)

theorem pyLower_idem (s : PyStr) : pyLower (pyLower s) = pyLower s := by
  induction s with
  | nil => rfl
  | cons c t ih =>
    show pyLowerChar (pyLowerChar c) :: pyLower (pyLower t) = pyLowerChar c :: pyLower t
    rw [pyLowerChar_idem, ih]

theorem beq_false_of_word_nonword {a c : Char} (ha : isWordChar a = true)
    (hc : isWordChar c = false) : (a == c) = false := by
  cases h : a == c
  · rfl
  · rw [eq_of_beq h] at ha
    exact Bool.noConfusion (hc.symm.trans ha)

theorem dropWhile_map_comm (p : Char → Bool) (f : Char → Char)
    (hp : ∀ c, p (f c) = p c) (l : PyStr) :
    (l.map f).dropWhile p = (l.dropWhile p).map f := by
  induction l with
  | nil => rfl
  | cons c t ih =>
    simp only [List.map_cons, List.dropWhile_cons, hp]
    by_cases h : p c = true
    · simp [h, ih]
    · simp [h]

theorem pyLower_rstrip (s : PyStr) : pyLower (rstrip s) = rstrip (pyLower s) := by
  unfold rstrip pyLower
  rw [List.map_reverse, ← dropWhile_map_comm isSpaceChar pyLowerChar isSpaceChar_pyLowerChar,
    List.map_reverse]

theorem pyLower_pyStrip (s : PyStr) : pyLower (pyStrip s) = pyStrip (pyLower s) := by
  unfold pyStrip lstrip
  rw [show pyLower ((rstrip s).dropWhile isSpaceChar) =
      ((pyLower (rstrip s)).dropWhile isSpaceChar) from
    (dropWhile_map_comm isSpaceChar pyLowerChar isSpaceChar_pyLowerChar _).symm]
  rw [pyLower_rstrip]

theorem all_not_word_of_all_space (u : PyStr) (hu : u.all isSpaceChar = true) :
    u.all (fun c => !isWordChar c) = true := by
  induction u with
  | nil => rfl
  | cons c u' ih =>
    simp only [List.all_cons, Bool.and_eq_true] at hu ⊢
    exact ⟨by simp [spaceChar_not_wordChar c hu.1], ih hu.2⟩

theorem matchWordHere_append (k v u : PyStr) (hw : k.all isWordChar = true)
    (hu : u.all (fun c => !isWordChar c) = true) :
    matchWordHere k (v ++ u) = matchWordHere k v := by
  induction k generalizing v with
  | nil =>
    cases v with
    | nil =>
      cases u with
      | nil => rfl
      | cons c u' =>
        simp only [List.all_cons, Bool.and_eq_true] at hu
        simp only [List.nil_append, matchWordHere, wordEndsAt, hu.1]
    | cons c v' => rfl
  | cons a k' ih =>
    cases v with
    | nil =>
      cases u with
      | nil => rfl
      | cons c u' =>
        simp only [List.all_cons, Bool.and_eq_true] at hw hu
        simp only [List.nil_append, matchWordHere]
        rw [beq_false_of_word_nonword hw.1 (by simpa using hu.1)]
        rfl
    | cons c v' =>
      simp only [List.all_cons, Bool.and_eq_true] at hw
      simp only [List.cons_append, matchWordHere]
      exact congrArg (fun b => a == c && b) (ih v' hw.2)

theorem scanWord_all_space (k u : PyStr) (hk : k ≠ []) (hw : k.all isWordChar = true)
    (hu : u.all isSpaceChar = true) : ∀ p, scanWord k u p = false := by
  induction u with
  | nil => intro p; rfl
  | cons c u' ih =>
    intro p
    simp only [List.all_cons, Bool.and_eq_true] at hu
    obtain ⟨a, k', rfl⟩ : ∃ a k', k = a :: k' := by
      cases k with
      | nil => exact absurd rfl hk
      | cons a k' => exact ⟨a, k', rfl⟩
    simp only [List.all_cons, Bool.and_eq_true] at hw
    simp only [scanWord, matchWordHere]
    rw [beq_false_of_word_nonword hw.1 (spaceChar_not_wordChar c hu.1)]
    simp only [Bool.false_and, Bool.and_false, Bool.false_or]
    exact ih hu.2 (isWordChar c)

theorem scanWord_append_space (k v u : PyStr) (hk : k ≠ []) (hw : k.all isWordChar = true)
    (hu : u.all isSpaceChar = true) : ∀ p, scanWord k (v ++ u) p = scanWord k v p := by
  induction v with
  | nil =>
    intro p
    rw [List.nil_append, scanWord_all_space k u hk hw hu p]
    rfl
  | cons c v' ih =>
    intro p
    show (!p && matchWordHere k ((c :: v') ++ u) || scanWord k (v' ++ u) (isWordChar c)) =
      (!p && matchWordHere k (c :: v') || scanWord k v' (isWordChar c))
    rw [matchWordHere_append k (c :: v') u hw (all_not_word_of_all_space u hu), ih]

theorem scanWord_lstrip (k l : PyStr) (hk : k ≠ []) (hw : k.all isWordChar = true) :
    scanWord k (l.dropWhile isSpaceChar) false = scanWord k l false := by
  induction l with
  | nil => rfl
  | cons c l' ih =>
    simp only [List.dropWhile_cons]
    by_cases h : isSpaceChar c = true
    · rw [if_pos h, ih]
      obtain ⟨a, k', rfl⟩ : ∃ a k', k = a :: k' := by
        cases k with
        | nil => exact absurd rfl hk
        | cons a k' => exact ⟨a, k', rfl⟩
      simp only [List.all_cons, Bool.and_eq_true] at hw
      conv_rhs => rw [scanWord]
      simp only [matchWordHere]
      rw [beq_false_of_word_nonword hw.1 (spaceChar_not_wordChar c h),
        spaceChar_not_wordChar c h]
      simp
    · rw [if_neg h]

theorem hasWholeWord_rstrip (k s : PyStr) (hk : k ≠ []) (hw : k.all isWordChar = true) :
    hasWholeWord k (rstrip s) = hasWholeWord k s := by
  unfold hasWholeWord
  have hdecomp : rstrip s ++ (s.reverse.takeWhile isSpaceChar).reverse = s := by
    unfold rstrip
    rw [← List.reverse_append, List.takeWhile_append_dropWhile, List.reverse_reverse]
  have htake : ((s.reverse.takeWhile isSpaceChar).reverse).all isSpaceChar = true := by
    rw [List.all_reverse]
    exact List.all_takeWhile
  calc scanWord k (rstrip s) false
      = scanWord k (rstrip s ++ (s.reverse.takeWhile isSpaceChar).reverse) false :=
        (scanWord_append_space k _ _ hk hw htake false).symm
    _ = scanWord k s false := by rw [hdecomp]

theorem hasWholeWord_pyStrip (k s : PyStr) (hk : k ≠ []) (hw : k.all isWordChar = true) :
    hasWholeWord k (pyStrip s) = hasWholeWord k s := by
  unfold pyStrip lstrip
  calc hasWholeWord k ((rstrip s).dropWhile isSpaceChar)
      = hasWholeWord k (rstrip s) := scanWord_lstrip k (rstrip s) hk hw
    _ = hasWholeWord k s := hasWholeWord_rstrip k s hk hw

theorem hasWholeWord_lower_strip (k s : PyStr) (hk : k ≠ []) (hw : k.all isWordChar = true) :
    hasWholeWord k (pyLower (pyStrip s)) = hasWholeWord k (pyLower s) := by
  rw [pyLower_pyStrip, hasWholeWord_pyStrip k _ hk hw]

theorem find?_congr_of_mem {α} (l : List α) (p q : α → Bool)
    (h : ∀ a ∈ l, p a = q a) : l.find? p = l.find? q := by
  induction l with
  | nil => rfl
  | cons a t ih =>
    rw [List.find?_cons, List.find?_cons, h a (List.mem_cons_self a t)]
    cases q a
    · exact ih (fun x hx => h x (List.mem_cons_of_mem a hx))
    · rfl

-- ==================================================================
-- Claim theorems
-- ==================================================================

/-- C1 (counterexample): the claim asserts that every deterministic builder
output passes `validate_sql` with status `success`; the non-aggregate users
query (country `None`, aggregate `false`) is an instance allowed by the claim,
and it is blocked (it selects the wildcard column set). -/
theorem C1_counterexample :
    (validate_sql (build_users_query none false)).status = lit "blocked" ∧
      lit "blocked" ≠ lit "success" := by
  constructor
  · decide
  · decide

/-- C1 (amended): deterministic builder outputs pass `validate_sql` with
status `success` for the aggregate queries that carry a time window where one
is required: every aggregate payments query with a day window in {7, 30} (any
status in {None, 'failed'}) and every aggregate users query (any country code
in the closed vocabulary or None).  Non-aggregate builder outputs select the
wildcard column set and are blocked, and the aggregate payments query without
a day window triggers the time-range clarification, so the claim's full range
does not validate. -/
theorem C1_amended :
    (validate_sql (build_payments_query none (some 7) true)).status = lit "success" ∧
    (validate_sql (build_payments_query none (some 30) true)).status = lit "success" ∧
    (validate_sql (build_payments_query (some (lit "failed")) (some 7) true)).status = lit "success" ∧
    (validate_sql (build_payments_query (some (lit "failed")) (some 30) true)).status = lit "success" ∧
    (validate_sql (build_users_query none true)).status = lit "success" ∧
    (validate_sql (build_users_query (some (lit "IN")) true)).status = lit "success" ∧
    (validate_sql (build_users_query (some (lit "US")) true)).status = lit "success" ∧
    (validate_sql (build_users_query (some (lit "UK")) true)).status = lit "success" ∧
    (validate_sql (build_users_query (some (lit "DE")) true)).status = lit "success" ∧
    (validate_sql (build_users_query (some (lit "SG")) true)).status = lit "success" := by
  refine ⟨?_, ?_, ?_, ?_, ?_, ?_, ?_, ?_, ?_, ?_⟩ <;> decide

/-- C2: for every input SQL string containing at least one forbidden keyword
as a whole word, case-insensitively, `validate_sql` returns status `blocked`,
its reason names the first-listed matching keyword, and the `sql` and
`question` fields are absent (`none`).  The hypothesis speaks about the raw
input; the validator itself scans the stripped, lowercased input, and the
bridge is `hasWholeWord_lower_strip`. -/
theorem C2_forbidden_keyword_blocks (sql : PyStr)
    (h : ∃ k ∈ FORBIDDEN_KEYWORDS, hasWholeWord k (pyLower sql) = true) :
    ∃ k, FORBIDDEN_KEYWORDS.find? (fun kw => hasWholeWord kw (pyLower sql)) = some k ∧
      validate_sql sql =
        { status := lit "blocked", sql := none, warnings := [],
          reason := some (lit "Query contains forbidden keyword: " ++ k ++ lit "."),
          question := none } := by
  have hkw : ∀ kw ∈ FORBIDDEN_KEYWORDS, kw ≠ [] ∧ kw.all isWordChar = true := by decide
  have hcongr : FORBIDDEN_KEYWORDS.find? (fun kw => hasWholeWord kw (pyLower (pyStrip sql))) =
      FORBIDDEN_KEYWORDS.find? (fun kw => hasWholeWord kw (pyLower sql)) :=
    find?_congr_of_mem _ _ _ (fun kw hmem =>
      hasWholeWord_lower_strip kw sql (hkw kw hmem).1 (hkw kw hmem).2)
  obtain ⟨k0, hk0⟩ : ∃ k0,
      FORBIDDEN_KEYWORDS.find? (fun kw => hasWholeWord kw (pyLower sql)) = some k0 := by
    obtain ⟨k, hmem, hk⟩ := h
    exact Option.isSome_iff_exists.mp (List.find?_isSome.mpr ⟨k, hmem, hk⟩)
  refine ⟨k0, hk0, ?_⟩
  simp only [validate_sql]
  rw [hcongr, hk0]

theorem C2_witness :
    (∃ k ∈ FORBIDDEN_KEYWORDS, hasWholeWord k (pyLower (lit "DROP TABLE users")) = true) ∧
    ∃ k, FORBIDDEN_KEYWORDS.find?
        (fun kw => hasWholeWord kw (pyLower (lit "DROP TABLE users"))) = some k ∧
      validate_sql (lit "DROP TABLE users") =
        { status := lit "blocked", sql := none, warnings := [],
          reason := some (lit "Query contains forbidden keyword: " ++ k ++ lit "."),
          question := none } :=
  ⟨by decide, C2_forbidden_keyword_blocks (lit "DROP TABLE users") (by decide)⟩

/-- C3: every input SQL string that passes the five blocking checks (no
forbidden keyword, at most one statement terminator, only allow-listed tables,
no self-join, no wildcard selector), references the payments or events table
and has no predicate on the time column is answered with status
`clarification_needed` and the fixed time-range prompt, not a block. -/
theorem C3_large_table_clarifies (sql : PyStr)
    (h1 : FORBIDDEN_KEYWORDS.find? (fun kw => hasWholeWord kw (pyLower (pyStrip sql))) = none)
    (h2 : (pyStrip sql).count ';' ≤ 1)
    (h3 : uses_only_allowed_tables (pyLower (pyStrip sql)) = true)
    (h4 : has_self_join (pyLower (pyStrip sql)) = false)
    (h5 : scanStar (pyLower (pyStrip sql)) = false)
    (h6 : (isSubstr (lit "payments") (pyLower (pyStrip sql)) ||
        isSubstr (lit "events") (pyLower (pyStrip sql))) = true)
    (h7 : isSubstr (lit "created_at") (pyLower (pyStrip sql)) = false) :
    validate_sql sql =
      { status := lit "clarification_needed", sql := none, warnings := [], reason := none,
        question := some GUARD_TIME_PROMPT } := by
  have hcount : ¬((pyStrip sql).count ';' > 1) := by omega
  simp only [validate_sql]
  rw [h1]
  simp only [references_large_tables_without_time_filter, h3, h4, h5, h6, h7,
    Bool.not_true, Bool.true_and, Bool.not_false, if_false, if_true,
    Bool.false_eq_true, if_neg hcount]

theorem C3_witness :
    FORBIDDEN_KEYWORDS.find? (fun kw =>
        hasWholeWord kw (pyLower (pyStrip (lit "SELECT id FROM payments")))) = none ∧
    (pyStrip (lit "SELECT id FROM payments")).count ';' ≤ 1 ∧
    validate_sql (lit "SELECT id FROM payments") =
      { status := lit "clarification_needed", sql := none, warnings := [], reason := none,
        question := some GUARD_TIME_PROMPT } :=
  ⟨by decide, by decide,
    C3_large_table_clarifies (lit "SELECT id FROM payments")
      (by decide) (by decide) (by decide) (by decide) (by decide) (by decide) (by decide)⟩

/-- C4: on every input SQL string on which none of the six checks trigger, if
the lowercase text omits a row cap (`limit` does not occur) the returned SQL
is the stripped input with trailing statement terminators removed and
` LIMIT 50` appended, with the automatic-limit warning; if a row cap is
present the stripped input is returned unmodified with empty warnings. -/
theorem C4_row_cap_applied (sql : PyStr)
    (h1 : FORBIDDEN_KEYWORDS.find? (fun kw => hasWholeWord kw (pyLower (pyStrip sql))) = none)
    (h2 : (pyStrip sql).count ';' ≤ 1)
    (h3 : uses_only_allowed_tables (pyLower (pyStrip sql)) = true)
    (h4 : has_self_join (pyLower (pyStrip sql)) = false)
    (h5 : scanStar (pyLower (pyStrip sql)) = false)
    (h6 : references_large_tables_without_time_filter (pyLower (pyStrip sql)) = false) :
    validate_sql sql =
      (if isSubstr (lit "limit") (pyLower (pyStrip sql)) then
        { status := lit "success", sql := some (pyStrip sql), warnings := [],
          reason := none, question := none }
      else
        { status := lit "success",
          sql := some (rstripSemicolons (pyStrip sql) ++ lit " LIMIT 50"),
          warnings := [lit "LIMIT 50 was automatically applied for safety"],
          reason := none, question := none }) := by
  have hcount : ¬((pyStrip sql).count ';' > 1) := by omega
  simp only [validate_sql]
  rw [h1]
  simp only [h3, h4, h5, h6, Bool.not_true, Bool.true_and, Bool.not_false,
    if_false, if_true, Bool.false_eq_true, if_neg hcount]

theorem C4_witness :
    FORBIDDEN_KEYWORDS.find? (fun kw =>
        hasWholeWord kw (pyLower (pyStrip (lit "SELECT id FROM users")))) = none ∧
    references_large_tables_without_time_filter
        (pyLower (pyStrip (lit "SELECT id FROM users"))) = false ∧
    validate_sql (lit "SELECT id FROM users") =
      (if isSubstr (lit "limit") (pyLower (pyStrip (lit "SELECT id FROM users"))) then
        { status := lit "success", sql := some (pyStrip (lit "SELECT id FROM users")),
          warnings := [], reason := none, question := none }
      else
        { status := lit "success",
          sql := some (rstripSemicolons (pyStrip (lit "SELECT id FROM users")) ++ lit " LIMIT 50"),
          warnings := [lit "LIMIT 50 was automatically applied for safety"],
          reason := none, question := none }) :=
  ⟨by decide, by decide,
    C4_row_cap_applied (lit "SELECT id FROM users")
      (by decide) (by decide) (by decide) (by decide) (by decide) (by decide)⟩

/-- C5: for every intent and every question whose lowercase text contains
`payment` or `event`, if the `has_time_range` signal is false then
`needs_clarification` returns exactly the time-range prompt, regardless of the
rest of the question and intent (so this rule precedes the `america` rule and
the list-vs-count rule, and exactly one prompt is returned). -/
theorem C5_time_range_rule_first (intent : IntentSignals) (question : PyStr)
    (h1 : (isSubstr (lit "payment") (pyLower question) ||
        isSubstr (lit "event") (pyLower question)) = true)
    (h2 : intent.has_time_range = false) :
    needs_clarification intent question = some AGENT_TIME_PROMPT := by
  simp only [needs_clarification]
  rw [h1, h2]
  rfl

theorem C5_witness :
    (isSubstr (lit "payment") (pyLower (lit "show payments from america")) ||
      isSubstr (lit "event") (pyLower (lit "show payments from america"))) = true ∧
    needs_clarification
        { is_filter := true, is_group_by := false, is_aggregate := false,
          has_time_range := false }
        (lit "show payments from america") = some AGENT_TIME_PROMPT :=
  ⟨by decide,
    C5_time_range_rule_first
      { is_filter := true, is_group_by := false, is_aggregate := false,
        has_time_range := false }
      (lit "show payments from america") (by decide) rfl⟩

/-- C6 (counterexample): normalization is not idempotent.  `normalize_question`
maps `india` to the code `IN`; a second application lowercases that code to
`in`, and the synonym map has no entry for the bare code `in` (adding one
would also rewrite the preposition), so the result changes. -/
theorem C6_counterexample :
    ¬(normalize_question (normalize_question (lit "india")) =
        normalize_question (lit "india")) := by
  decide

/-- C6 (amended): normalization is a pure total function and it is idempotent
on every question left unchanged by the synonym-substitution pass, i.e.
whenever substitution fixes the lowercased question; in general a second
application may differ, because the codes `IN`, `DE` and `SG` produced by
substitution re-normalize to their lowercase forms. -/
theorem C6_amended (q : PyStr) (h : applySubs (pyLower q) = pyLower q) :
    normalize_question (normalize_question q) = normalize_question q := by
  unfold normalize_question
  rw [h, pyLower_idem, h]

theorem C6_witness :
    applySubs (pyLower (lit "Show All Users")) = pyLower (lit "Show All Users") ∧
    normalize_question (normalize_question (lit "Show All Users")) =
      normalize_question (lit "Show All Users") :=
  ⟨by decide, C6_amended (lit "Show All Users") (by decide)⟩

/-- C7 (counterexample): the question `show country` contains no whole-word
classifier aggregate marker and contains the list marker `show `, so the claim
demands post-override `is_aggregate = false`; but the override's count markers
are substring tests and `count` occurs inside `country`, so the post-override
intent has `is_aggregate = true`. -/
theorem C7_counterexample :
    anyWholeWord AGGREGATE_MARKERS (pyLower (lit "show country")) = false ∧
    ([lit " list", lit "show ", lit "details"].any
        (fun m => isSubstr m (pyLower (lit "show country")))) = true ∧
    (applyAggregateOverride (detect_intent (lit "show country"))
        (pyLower (lit "show country"))).is_aggregate = true := by
  refine ⟨?_, ?_, ?_⟩ <;> decide

/-- C7 (amended): the override is decided by its own substring markers, not by
the classifier's whole-word aggregate-marker set: if the lowercased question
contains `count`, `how many` or `total` as a substring, the post-override
intent has `is_aggregate = true`; if it contains none of those but contains
` list`, `show ` or `details` as a substring, it has `is_aggregate = false`
(`sum` counts for the classifier but not for the override, and `count` may
occur inside another word such as `country`). -/
theorem C7_amended (q : PyStr) :
    (([lit "count", lit "how many", lit "total"].any
        (fun m => isSubstr m (pyLower q))) = true →
      (applyAggregateOverride (detect_intent q) (pyLower q)).is_aggregate = true) ∧
    (([lit "count", lit "how many", lit "total"].any
        (fun m => isSubstr m (pyLower q))) = false →
      ([lit " list", lit "show ", lit "details"].any
        (fun m => isSubstr m (pyLower q))) = true →
      (applyAggregateOverride (detect_intent q) (pyLower q)).is_aggregate = false) := by
  constructor
  · intro h
    simp only [applyAggregateOverride, h, if_true]
  · intro h1 h2
    simp only [applyAggregateOverride, h1, h2, Bool.false_eq_true, if_false, if_true]

theorem C7_witness :
    ([lit "count", lit "how many", lit "total"].any
        (fun m => isSubstr m (pyLower (lit "show users list")))) = false ∧
    ([lit " list", lit "show ", lit "details"].any
        (fun m => isSubstr m (pyLower (lit "show users list")))) = true ∧
    (applyAggregateOverride (detect_intent (lit "show users list"))
        (pyLower (lit "show users list"))).is_aggregate = false :=
  ⟨by decide, by decide, (C7_amended (lit "show users list")).2 (by decide) (by decide)⟩

/-- C8: on `Show failed payments last 7 days` with an empty pending slot,
`run_agent` takes the deterministic payments path.  The result is the same
for every generator collaborator `gen` (no generator call is made: `gen` does
not occur on the right-hand side), the built SQL is the single-table payments
query filtering `status = 'failed'` with a 7-day `created_at` window and row
cap `LIMIT 50` (spelled out in the second conjunct), and, when the executor
returns a result, the response carries confidence 0.7 with that SQL. -/
theorem C8_scenario_failed_payments (gen : PyStr → Option PyStr)
    (ex : PyStr → Option QueryResult) (res : QueryResult)
    (hex : ex (build_payments_query (some (lit "failed")) (some 7) false) = some res) :
    run_agent gen ex { pending_question := none, pending_clarification := none }
        (lit "Show failed payments last 7 days") =
      ({ answer := lit "Here are the results of your query.",
         sql := some (build_payments_query (some (lit "failed")) (some 7) false),
         rows := res.rows,
         explanation := some
           (if !res.columns.isEmpty && !res.rows.isEmpty then
             lit "Returned " ++ natStr res.rows.length ++ lit " rows with columns: " ++
               (lit ", ").intercalate res.columns ++ lit "."
           else lit "Query executed via deterministic routing."),
         confidence := 0.7,
         warnings := [] },
       { pending_question := none, pending_clarification := none }) ∧
    build_payments_query (some (lit "failed")) (some 7) false =
      lit "SELECT *\nFROM payments\nWHERE status = 'failed'\n  AND created_at >= datetime('now', '-7 days')\nLIMIT 50" := by
  constructor
  · have h : run_agent gen ex { pending_question := none, pending_clarification := none }
        (lit "Show failed payments last 7 days") =
        (detResponse (build_payments_query (some (lit "failed")) (some 7) false) ex,
         { pending_question := none, pending_clarification := none }) := rfl
    rw [h]
    simp only [detResponse, hex]
  · decide

theorem C8_witness :
    (fun _ => some { columns := [], rows := [] } :
        PyStr → Option QueryResult) (build_payments_query (some (lit "failed")) (some 7) false) =
      some { columns := [], rows := [] } ∧
    run_agent (fun _ => none) (fun _ => some { columns := [], rows := [] })
        { pending_question := none, pending_clarification := none }
        (lit "Show failed payments last 7 days") =
      ({ answer := lit "Here are the results of your query.",
         sql := some (build_payments_query (some (lit "failed")) (some 7) false),
         rows := [],
         explanation := some (lit "Query executed via deterministic routing."),
         confidence := 0.7,
         warnings := [] },
       { pending_question := none, pending_clarification := none }) := by
  constructor
  · rfl
  · have h := (C8_scenario_failed_payments (fun _ => none)
      (fun _ => some { columns := [], rows := [] }) { columns := [], rows := [] } rfl).1
    rw [h]
    rfl

/-- C9: every `run_agent` turn that starts with an occupied (truthy) pending
slot clears the slot during that turn; the final state is `⟨none, none⟩`
except when this turn's own clarification gate fires on the merged question,
which re-arms the slot with the merged question and the new prompt.  In
particular the old pending question never survives a follow-up turn. -/
theorem C9_slot_always_cleared (gen : PyStr → Option PyStr) (ex : PyStr → Option QueryResult)
    (st : AgentState) (q : PyStr) (h : strTruthy st.pending_question = true) :
    (run_agent gen ex st q).2 =
      (match needs_clarification
          (applyAggregateOverride
            (detect_intent (normalize_question (combine_with_pending st.pending_question q)))
            (pyLower (normalize_question (combine_with_pending st.pending_question q))))
          (normalize_question (combine_with_pending st.pending_question q)) with
       | some clar =>
         { pending_question := some (combine_with_pending st.pending_question q),
           pending_clarification := some clar }
       | none => { pending_question := none, pending_clarification := none }) := by
  simp only [run_agent, h, if_true]
  split
  · rfl
  · split
    · rfl
    · split
      · rfl
      · split
        · rfl
        · split
          · rfl
          · split
            · rfl
            · split <;> rfl

theorem C9_witness :
    strTruthy (some (lit "Show payments")) = true ∧
    (run_agent (fun _ => none) (fun _ => none)
        { pending_question := some (lit "Show payments"),
          pending_clarification := some AGENT_TIME_PROMPT } (lit "count")).2 =
      (match needs_clarification
          (applyAggregateOverride
            (detect_intent (normalize_question
              (combine_with_pending (some (lit "Show payments")) (lit "count"))))
            (pyLower (normalize_question
              (combine_with_pending (some (lit "Show payments")) (lit "count")))))
          (normalize_question
            (combine_with_pending (some (lit "Show payments")) (lit "count"))) with
       | some clar =>
         { pending_question := some
             (combine_with_pending (some (lit "Show payments")) (lit "count")),
           pending_clarification := some clar }
       | none => { pending_question := none, pending_clarification := none }) :=
  ⟨by decide,
    C9_slot_always_cleared (fun _ => none) (fun _ => none)
      { pending_question := some (lit "Show payments"),
        pending_clarification := some AGENT_TIME_PROMPT } (lit "count") (by decide)⟩


theorem codeWordAtFrom_cons (prev : Bool) (k : PyStr) (c : Char) (s' : PyStr) (i : Nat) :
    codeWordAtFrom prev k (c :: s') (i + 1) = codeWordAtFrom (isWordChar c) k s' i := by
  cases i with
  | zero => simp [codeWordAtFrom]
  | succ j => simp [codeWordAtFrom]

theorem scanCountry_eq_findSome (s : PyStr) : ∀ prev,
    scanCountry s prev =
      (List.range s.length).findSome?
        (fun i => COUNTRY_CODES.find? (fun k => codeWordAtFrom prev k s i)) := by
  induction s with
  | nil => intro prev; rfl
  | cons c s' ih =>
    intro prev
    rw [List.length_cons, List.range_succ_eq_map]
    simp only [List.findSome?_cons, List.findSome?_map]
    have htail : (List.range s'.length).findSome?
        ((fun i => COUNTRY_CODES.find? (fun k => codeWordAtFrom prev k (c :: s') i)) ∘ Nat.succ) =
        (List.range s'.length).findSome?
          (fun i => COUNTRY_CODES.find? (fun k => codeWordAtFrom (isWordChar c) k s' i)) := by
      apply congrArg (fun f => List.findSome? f (List.range s'.length))
      funext i
      apply find?_congr_of_mem
      intro k _
      exact codeWordAtFrom_cons prev k c s' i
    rw [htail, ← ih (isWordChar c)]
    have hkey : COUNTRY_CODES.find? (fun k => codeWordAtFrom prev k (c :: s') 0) =
        (if prev then none else COUNTRY_CODES.find? (fun k => matchWordHere k (c :: s'))) := by
      cases prev
      · simp only [Bool.false_eq_true, if_false]
        apply find?_congr_of_mem
        intro k _
        simp [codeWordAtFrom]
      · simp only [if_true]
        exact List.find?_eq_none.mpr (fun k _ => by simp [codeWordAtFrom])
    rw [hkey]
    cases hp : prev
    · simp only [Bool.false_eq_true, if_false]
      cases hF : COUNTRY_CODES.find? (fun k => matchWordHere k (c :: s')) with
      | some k => simp [scanCountry, hF]
      | none => simp [scanCountry, hF]
    · simp [scanCountry]

/-- C10: `extract_country` returns the uppercase form of the first whole-word
occurrence of one of `in`, `us`, `uk`, `de`, `sg` in the lowercased question
(`first_code_at` is the positional description: the smallest index with a
whole-word occurrence), and `none` when there is none.  In particular, on
`users in de` the preposition `in` is the first occurrence, so the extracted
country is `IN`, not the later code `de`. -/
theorem C10_extract_country_first_occurrence :
    (∀ q, extract_country q = (first_code_at (pyLower q)).map pyUpper) ∧
    extract_country (lit "users in de") = some (lit "IN") ∧
    extract_country (lit "list all accounts") = none := by
  refine ⟨?_, by decide, by decide⟩
  intro q
  unfold extract_country first_code_at
  rw [scanCountry_eq_findSome (pyLower q) false]
  have hfa : (fun i => COUNTRY_CODES.find? (fun k => codeWordAtFrom false k (pyLower q) i)) =
      (fun i => COUNTRY_CODES.find? (fun k => codeWordAt k (pyLower q) i)) := by
    funext i
    apply find?_congr_of_mem
    intro k _
    simp [codeWordAtFrom, codeWordAt]
  rw [hfa]
